import Mathlib

/-!
# MSP-omodoro: the finite-state machine of `msp-omodoro.c`

A shallow embedding of the two interrupt handlers of `src/msp-omodoro.c`
(`P1_ISR`, the button handler, and `TIMER_A`, the 10 Hz tick handler) and
of the part of `main` that fixes the initial state.

Conventions of the embedding.

* The C globals `current_state`, `button_press`, the two `static` locals
  `ticks` and `seconds` of `TIMER_A`, and the output register `P1OUT`
  are the fields of `State`.
* `int` on the MSP430 is a 16-bit two's-complement integer.  The variables
  are integers; the two increments `ticks ++` and `seconds++` wrap to the
  16-bit signed range (`wrapInt`), which is what the processor's `ADD`
  does.  Every other operation of the handlers stays within range.
* The C operator `%` truncates towards zero: it is `Int.tmod`.
* `P1OUT` is an 8-bit register, a natural number; `P1OUT &= ~m` and
  `P1OUT |= m` are `clearBits` and `setBits`.
* The requests for a low-power mode (`__bis_SR_register`) act on the
  status register only, which is not part of the state modelled here, and
  so does the acknowledgement `P1IFG &= ~BUTTON` of `P1_ISR`.
-/

namespace MspOmodoro

/-! ## Private macros -/

/-- Node of the finite-state machine: `#define STATE_OFF 0`. -/
abbrev STATE_OFF : Int := 0
/-- Node of the finite-state machine: `#define STATE_TIME_TO_WORK 1`. -/
abbrev STATE_TIME_TO_WORK : Int := 1
/-- Node of the finite-state machine: `#define STATE_WORK 2`. -/
abbrev STATE_WORK : Int := 2
/-- Node of the finite-state machine: `#define STATE_PREPARE_BREAK 3`. -/
abbrev STATE_PREPARE_BREAK : Int := 3
/-- Node of the finite-state machine: `#define STATE_TIME_TO_BREAK 4`. -/
abbrev STATE_TIME_TO_BREAK : Int := 4
/-- Node of the finite-state machine: `#define STATE_SHORT_BREAK 5`. -/
abbrev STATE_SHORT_BREAK : Int := 5
/-- Node of the finite-state machine: `#define STATE_LONG_BREAK 6`. -/
abbrev STATE_LONG_BREAK : Int := 6
/-- Node of the finite-state machine: `#define STATE_PREPARE_WORK 7`. -/
abbrev STATE_PREPARE_WORK : Int := 7

/-- Delay in seconds: `#define DELAY_BEFORE_OFF (5*60)`. -/
abbrev DELAY_BEFORE_OFF : Int := 5 * 60
/-- Delay in seconds: `#define WORK_TIME (25*60)`. -/
abbrev WORK_TIME : Int := 25 * 60
/-- Delay in seconds: `#define PREPARE_TIME (2*60)`. -/
abbrev PREPARE_TIME : Int := 2 * 60
/-- Delay in seconds: `#define SHORT_BREAK_TIME (5*60)`. -/
abbrev SHORT_BREAK_TIME : Int := 5 * 60
/-- Delay in seconds: `#define LONG_BREAK_TIME (15*60)`. -/
abbrev LONG_BREAK_TIME : Int := 15 * 60

/-- Port 1 mask: `#define RED_LED 0x01`. -/
abbrev RED_LED : Nat := 0x01
/-- Port 1 mask: `#define GREEN_LED 0x40`. -/
abbrev GREEN_LED : Nat := 0x40
/-- Port 1 mask: `#define BUTTON 0x08`. -/
abbrev BUTTON : Nat := 0x08

/-! ## Machine arithmetic -/

/-- Reduction of an integer to the 16-bit two's-complement range of the
MSP430 `int`. -/
def wrapInt (x : Int) : Int := (x + 32768) % 65536 - 32768

/-- The statement `P1OUT &= ~m` on the 8-bit register. -/
def clearBits (p m : Nat) : Nat := p &&& (0xFF ^^^ m)

/-- The statement `P1OUT |= m` on the 8-bit register. -/
def setBits (p m : Nat) : Nat := (p ||| m) % 256

/-! ## Private variables -/

/-- The variables the handlers read and write. -/
structure State where
  /-- The state of the machine, `static int current_state`. -/
  current_state : Int
  /-- Occurrence of a button press, `static int button_press`. -/
  button_press : Int
  /-- Tenths of a second, `static int ticks` of `TIMER_A`. -/
  ticks : Int
  /-- Seconds elapsed, `static int seconds` of `TIMER_A`. -/
  seconds : Int
  /-- The output register of port 1. -/
  P1OUT : Nat
deriving DecidableEq, Repr

/-- Bit 0 (`RED_LED = 0x01`) of a value of the port. -/
def redBit (p : Nat) : Bool := p.testBit 0

/-- Bit 6 (`GREEN_LED = 0x40`) of a value of the port. -/
def greenBit (p : Nat) : Bool := p.testBit 6

/-- The red LED is lit: the `RED_LED` bit of `P1OUT` is set. -/
def redOn (s : State) : Bool := redBit s.P1OUT

/-- The green LED is lit: the `GREEN_LED` bit of `P1OUT` is set. -/
def greenOn (s : State) : Bool := greenBit s.P1OUT

/-! ## Public functions -/

/-- The variables as `main` leaves them when it goes to sleep: the
initialisers of the four variables, and `P1OUT` after
`P1OUT &= ~(GREEN_LED | RED_LED)` and `P1OUT |= BUTTON`, from the value
`p0` the register holds at power-up. -/
def main (p0 : Nat) : State :=
  { current_state := STATE_OFF
    button_press := 0
    ticks := 0
    seconds := 0
    P1OUT := setBits (clearBits p0 (GREEN_LED ||| RED_LED)) BUTTON }

/-- Port 1 interrupt handler (triggered by a button press). -/
def P1_ISR (s : State) : State :=
  { s with button_press := 1 }

/-- First part of `TIMER_A`: update the seconds counter. -/
def updateCounters (s : State) : State :=
  let s1 := { s with ticks := wrapInt (s.ticks + 1) }
  if s1.ticks = 10 then
    { s1 with ticks := 0, seconds := wrapInt (s1.seconds + 1) }
  else s1

/-- Second part of `TIMER_A`: the first `switch`, the transitions of the
machine.  A value of `current_state` that is none of the eight nodes
matches no `case` and the `switch` does nothing. -/
def transitions (s : State) : State :=
  if s.current_state = STATE_OFF then
    { s with current_state := STATE_TIME_TO_WORK }
  else if s.current_state = STATE_TIME_TO_WORK then
    let s1 := if s.button_press ≠ 0 then
      { s with button_press := 0, current_state := STATE_WORK } else s
    if s1.seconds > DELAY_BEFORE_OFF then
      { s1 with seconds := 0, current_state := STATE_OFF } else s1
  else if s.current_state = STATE_WORK then
    let s1 := if s.button_press ≠ 0 then
      { s with button_press := 0 } else s
    if s1.seconds > WORK_TIME - PREPARE_TIME then
      { s1 with seconds := 0, current_state := STATE_PREPARE_BREAK } else s1
  else if s.current_state = STATE_PREPARE_BREAK then
    let s1 := if s.button_press ≠ 0 then
      { s with button_press := 0, current_state := STATE_SHORT_BREAK } else s
    if s1.seconds > PREPARE_TIME then
      { s1 with seconds := 0, current_state := STATE_TIME_TO_BREAK } else s1
  else if s.current_state = STATE_TIME_TO_BREAK then
    let s1 := if s.button_press ≠ 0 then
      { s with button_press := 0, current_state := STATE_SHORT_BREAK } else s
    if s1.seconds > DELAY_BEFORE_OFF then
      { s1 with seconds := 0, current_state := STATE_OFF } else s1
  else if s.current_state = STATE_SHORT_BREAK then
    let s1 := if s.button_press ≠ 0 then
      { s with button_press := 0, current_state := STATE_LONG_BREAK } else s
    if s1.seconds > SHORT_BREAK_TIME - PREPARE_TIME then
      { s1 with seconds := 0, current_state := STATE_PREPARE_WORK } else s1
  else if s.current_state = STATE_LONG_BREAK then
    let s1 := if s.button_press ≠ 0 then
      { s with button_press := 0 } else s
    if s1.seconds > LONG_BREAK_TIME - PREPARE_TIME then
      { s1 with seconds := 0, current_state := STATE_PREPARE_WORK } else s1
  else if s.current_state = STATE_PREPARE_WORK then
    let s1 := if s.button_press ≠ 0 then
      { s with button_press := 0, current_state := STATE_WORK } else s
    if s1.seconds > PREPARE_TIME then
      { s1 with seconds := 0, current_state := STATE_TIME_TO_WORK } else s1
  else s

/-- Third part of `TIMER_A`: the second `switch`, the actions for the
current state. -/
def actions (s : State) : State :=
  if s.current_state = STATE_OFF then
    { s with P1OUT := 0 }
  else if s.current_state = STATE_TIME_TO_WORK then
    let s1 := { s with P1OUT := clearBits s.P1OUT GREEN_LED }
    if Int.tmod s1.ticks 2 = 0 then
      { s1 with P1OUT := clearBits s1.P1OUT RED_LED }
    else
      { s1 with P1OUT := setBits s1.P1OUT RED_LED }
  else if s.current_state = STATE_WORK then
    let s1 := { s with P1OUT := clearBits s.P1OUT GREEN_LED }
    { s1 with P1OUT := setBits s1.P1OUT RED_LED }
  else if s.current_state = STATE_PREPARE_BREAK then
    if Int.tmod s.seconds 4 = 0 then
      { s with P1OUT := clearBits s.P1OUT RED_LED }
    else
      { s with P1OUT := setBits s.P1OUT RED_LED }
  else if s.current_state = STATE_TIME_TO_BREAK then
    let s1 := { s with P1OUT := clearBits s.P1OUT RED_LED }
    if Int.tmod s1.ticks 2 = 0 then
      { s1 with P1OUT := clearBits s1.P1OUT GREEN_LED }
    else
      { s1 with P1OUT := setBits s1.P1OUT GREEN_LED }
  else if s.current_state = STATE_SHORT_BREAK ∨ s.current_state = STATE_LONG_BREAK then
    let s1 := { s with P1OUT := setBits s.P1OUT GREEN_LED }
    { s1 with P1OUT := clearBits s1.P1OUT RED_LED }
  else if s.current_state = STATE_PREPARE_WORK then
    if Int.tmod s.seconds 4 = 0 then
      { s with P1OUT := clearBits s.P1OUT GREEN_LED }
    else
      { s with P1OUT := setBits s.P1OUT GREEN_LED }
  else s

/-- Timer interrupt handler (triggered at 10Hz): the counters, then the
transitions, then the actions. -/
def TIMER_A (s : State) : State :=
  actions (transitions (updateCounters s))

/-- The state after `n` consecutive runs of `TIMER_A` with no button press
in between. -/
def runTicks : Nat → State → State
  | 0, s => s
  | n + 1, s => TIMER_A (runTicks n s)

/-- The two interrupts. -/
inductive Event where
  | tick
  | press
deriving DecidableEq, Repr

/-- The handler of an interrupt. -/
def handle (s : State) : Event → State
  | .tick => TIMER_A s
  | .press => P1_ISR s

/-- The state after a sequence of interrupts, handled in order. -/
def run (evs : List Event) (s : State) : State :=
  evs.foldl handle s

/-- The state after `n` consecutive runs of `P1_ISR` with no tick in
between. -/
def presses : Nat → State → State
  | 0, s => s
  | n + 1, s => P1_ISR (presses n s)

/-- The bounds of the variables: the phase is one of the eight nodes
(0..7), the ticks counter is in 0..9 and the seconds counter in 0..1380. -/
def inBounds (s : State) : Prop :=
  (STATE_OFF ≤ s.current_state ∧ s.current_state ≤ STATE_PREPARE_WORK) ∧
    (0 ≤ s.ticks ∧ s.ticks ≤ 9) ∧ (0 ≤ s.seconds ∧ s.seconds ≤ 1380)

instance (s : State) : Decidable (inBounds s) := by
  unfold inBounds; infer_instance

/-! ## The tables of the specification -/

/-- The current state is one of the eight nodes. -/
def isPhase (p : Int) : Prop := STATE_OFF ≤ p ∧ p ≤ STATE_PREPARE_WORK

instance (p : Int) : Decidable (isPhase p) := by
  unfold isPhase; infer_instance

/-- Transition table of the specification, timeout column: the number of
seconds the counter has to exceed. -/
def specTimeoutThreshold (p : Int) : Int :=
  if p = STATE_TIME_TO_WORK then 300
  else if p = STATE_WORK then 1380
  else if p = STATE_PREPARE_BREAK then 120
  else if p = STATE_TIME_TO_BREAK then 300
  else if p = STATE_SHORT_BREAK then 180
  else if p = STATE_LONG_BREAK then 780
  else 120

/-- Transition table of the specification, timeout column: the next
phase. -/
def specTimeoutTarget (p : Int) : Int :=
  if p = STATE_TIME_TO_WORK then STATE_OFF
  else if p = STATE_WORK then STATE_PREPARE_BREAK
  else if p = STATE_PREPARE_BREAK then STATE_TIME_TO_BREAK
  else if p = STATE_TIME_TO_BREAK then STATE_OFF
  else if p = STATE_SHORT_BREAK then STATE_PREPARE_WORK
  else if p = STATE_LONG_BREAK then STATE_PREPARE_WORK
  else STATE_TIME_TO_WORK

/-- Transition table of the specification, button column: the next phase
(`Work` and `LongBreak` consume the press and stay). -/
def specButtonTarget (p : Int) : Int :=
  if p = STATE_TIME_TO_WORK then STATE_WORK
  else if p = STATE_WORK then STATE_WORK
  else if p = STATE_PREPARE_BREAK then STATE_SHORT_BREAK
  else if p = STATE_TIME_TO_BREAK then STATE_SHORT_BREAK
  else if p = STATE_SHORT_BREAK then STATE_LONG_BREAK
  else if p = STATE_LONG_BREAK then STATE_LONG_BREAK
  else STATE_WORK

/-! ## One tick: the phase -/

theorem actions_current_state (s : State) :
    (actions s).current_state = s.current_state := by
  unfold actions
  simp only []
  split_ifs <;> rfl

theorem actions_button_press (s : State) :
    (actions s).button_press = s.button_press := by
  unfold actions
  simp only []
  split_ifs <;> rfl

theorem actions_ticks (s : State) : (actions s).ticks = s.ticks := by
  unfold actions
  simp only []
  split_ifs <;> rfl

theorem actions_seconds (s : State) : (actions s).seconds = s.seconds := by
  unfold actions
  simp only []
  split_ifs <;> rfl

theorem updateCounters_current_state (s : State) :
    (updateCounters s).current_state = s.current_state := by
  unfold updateCounters
  simp only []
  split_ifs <;> rfl

theorem updateCounters_button_press (s : State) :
    (updateCounters s).button_press = s.button_press := by
  unfold updateCounters
  simp only []
  split_ifs <;> rfl

theorem updateCounters_P1OUT (s : State) :
    (updateCounters s).P1OUT = s.P1OUT := by
  unfold updateCounters
  simp only []
  split_ifs <;> rfl

/-- What the first `switch` does in a phase other than `Off`, in one
formula: the press, if any, is consumed; the timeout wins over the press;
the seconds are reset by the timeout alone. -/
theorem transitions_of_phase (s : State) (hp : isPhase s.current_state)
    (hoff : s.current_state ≠ STATE_OFF) :
    transitions s =
      { s with
        button_press := 0
        current_state :=
          if s.seconds > specTimeoutThreshold s.current_state then
            specTimeoutTarget s.current_state
          else if s.button_press ≠ 0 then specButtonTarget s.current_state
          else s.current_state
        seconds :=
          if s.seconds > specTimeoutThreshold s.current_state then 0
          else s.seconds } := by
  obtain ⟨cs, bp, t, sec, out⟩ := s
  obtain ⟨h0, h7⟩ := hp
  simp only [STATE_OFF, STATE_PREPARE_WORK] at h0 h7 hoff
  have hcases : cs = 1 ∨ cs = 2 ∨ cs = 3 ∨ cs = 4 ∨ cs = 5 ∨ cs = 6 ∨ cs = 7 := by
    omega
  rcases hcases with h | h | h | h | h | h | h <;> subst h <;>
    by_cases hb : bp = 0 <;>
    simp [transitions, specTimeoutThreshold, specTimeoutTarget, specButtonTarget, hb,
      DELAY_BEFORE_OFF, WORK_TIME, PREPARE_TIME, SHORT_BREAK_TIME, LONG_BREAK_TIME] <;>
    split_ifs <;> simp_all

/-- In `Off` the first `switch` only moves to `TimeToWork`. -/
theorem transitions_off (s : State) (hoff : s.current_state = STATE_OFF) :
    transitions s = { s with current_state := STATE_TIME_TO_WORK } := by
  simp [transitions, hoff]

/-- A value that is none of the eight nodes matches no `case`. -/
theorem transitions_of_not_phase (s : State) (hp : ¬ isPhase s.current_state) :
    transitions s = s := by
  have h : s.current_state < 0 ∨ 7 < s.current_state := by
    unfold isPhase at hp
    simp only [STATE_OFF, STATE_PREPARE_WORK] at hp
    omega
  have h0 : s.current_state ≠ 0 := by omega
  have h1 : s.current_state ≠ 1 := by omega
  have h2 : s.current_state ≠ 2 := by omega
  have h3 : s.current_state ≠ 3 := by omega
  have h4 : s.current_state ≠ 4 := by omega
  have h5 : s.current_state ≠ 5 := by omega
  have h6 : s.current_state ≠ 6 := by omega
  have h7 : s.current_state ≠ 7 := by omega
  simp [transitions, h0, h1, h2, h3, h4, h5, h6, h7]

theorem transitions_ticks (s : State) : (transitions s).ticks = s.ticks := by
  by_cases hp : isPhase s.current_state
  · by_cases hoff : s.current_state = STATE_OFF
    · rw [transitions_off s hoff]
    · rw [transitions_of_phase s hp hoff]
  · rw [transitions_of_not_phase s hp]

theorem transitions_P1OUT (s : State) : (transitions s).P1OUT = s.P1OUT := by
  by_cases hp : isPhase s.current_state
  · by_cases hoff : s.current_state = STATE_OFF
    · rw [transitions_off s hoff]
    · rw [transitions_of_phase s hp hoff]
  · rw [transitions_of_not_phase s hp]

theorem TIMER_A_current_state (s : State) :
    (TIMER_A s).current_state = (transitions (updateCounters s)).current_state := by
  unfold TIMER_A
  rw [actions_current_state]

theorem TIMER_A_button_press (s : State) :
    (TIMER_A s).button_press = (transitions (updateCounters s)).button_press := by
  unfold TIMER_A
  rw [actions_button_press]

theorem TIMER_A_seconds (s : State) :
    (TIMER_A s).seconds = (transitions (updateCounters s)).seconds := by
  unfold TIMER_A
  rw [actions_seconds]

theorem TIMER_A_ticks (s : State) :
    (TIMER_A s).ticks = (updateCounters s).ticks := by
  unfold TIMER_A
  rw [actions_ticks, transitions_ticks]

/-- One tick from a phase other than `Off`: phase, flag and seconds after
the tick, from the seconds counter as the counter update leaves it. -/
theorem TIMER_A_of_phase (s : State) (hp : isPhase s.current_state)
    (hoff : s.current_state ≠ STATE_OFF) :
    (TIMER_A s).current_state =
        (if (updateCounters s).seconds > specTimeoutThreshold s.current_state then
          specTimeoutTarget s.current_state
        else if s.button_press ≠ 0 then specButtonTarget s.current_state
        else s.current_state) ∧
    (TIMER_A s).button_press = 0 ∧
    (TIMER_A s).seconds =
        (if (updateCounters s).seconds > specTimeoutThreshold s.current_state then 0
        else (updateCounters s).seconds) := by
  have hp1 : isPhase (updateCounters s).current_state := by
    rw [updateCounters_current_state]; exact hp
  have hoff1 : (updateCounters s).current_state ≠ STATE_OFF := by
    rw [updateCounters_current_state]; exact hoff
  rw [TIMER_A_current_state, TIMER_A_button_press, TIMER_A_seconds,
    transitions_of_phase _ hp1 hoff1]
  simp only [updateCounters_current_state, updateCounters_button_press]
  exact ⟨trivial, trivial, trivial⟩

/-- One tick from `Off`: phase, flag and seconds after the tick. -/
theorem TIMER_A_of_off (s : State) (hoff : s.current_state = STATE_OFF) :
    (TIMER_A s).current_state = STATE_TIME_TO_WORK ∧
    (TIMER_A s).button_press = s.button_press ∧
    (TIMER_A s).seconds = (updateCounters s).seconds := by
  have hoff1 : (updateCounters s).current_state = STATE_OFF := by
    rw [updateCounters_current_state]; exact hoff
  rw [TIMER_A_current_state, TIMER_A_button_press, TIMER_A_seconds,
    transitions_off _ hoff1]
  simp only [updateCounters_button_press]
  exact ⟨trivial, trivial, trivial⟩

/-- No timeout target of the table is the phase it leaves. -/
theorem specTimeoutTarget_ne (p : Int) (hp : isPhase p) (hoff : p ≠ STATE_OFF) :
    specTimeoutTarget p ≠ p := by
  obtain ⟨h0, h7⟩ := hp
  simp only [STATE_OFF, STATE_PREPARE_WORK] at h0 h7 hoff
  have hcases : p = 1 ∨ p = 2 ∨ p = 3 ∨ p = 4 ∨ p = 5 ∨ p = 6 ∨ p = 7 := by
    omega
  rcases hcases with h | h | h | h | h | h | h <;> subst h <;>
    simp [specTimeoutTarget]

/-! ## The transition table -/

/-- C1. Timeout column: from a phase other than `Off` with no press
pending, one run of `TIMER_A` moves the phase to the timeout target of the
table exactly when the seconds counter, as the counter update of this tick
leaves it, is strictly greater than the threshold of the table, and
otherwise leaves the phase unchanged. -/
theorem timeout_column (s : State) (hp : isPhase s.current_state)
    (hoff : s.current_state ≠ STATE_OFF) (hb : s.button_press = 0) :
    ((TIMER_A s).current_state = specTimeoutTarget s.current_state ↔
        (updateCounters s).seconds > specTimeoutThreshold s.current_state) ∧
    (¬ (updateCounters s).seconds > specTimeoutThreshold s.current_state →
        (TIMER_A s).current_state = s.current_state) := by
  have h := (TIMER_A_of_phase s hp hoff).1
  have hne := specTimeoutTarget_ne s.current_state hp hoff
  by_cases ht : (updateCounters s).seconds > specTimeoutThreshold s.current_state
  · rw [if_pos ht] at h
    exact ⟨⟨fun _ => ht, fun _ => h⟩, fun hn => absurd ht hn⟩
  · rw [if_neg ht, if_neg (not_not.mpr hb)] at h
    refine ⟨⟨fun heq => ?_, fun hgt => absurd hgt ht⟩, fun _ => h⟩
    exact absurd (heq.symm.trans h) hne

/-- Witness of C1: `Work` at 1380 seconds and 9 ticks, no press; the tick
brings the counter to 1381 and the phase to `PrepareBreak`. -/
theorem timeout_column_witness :
    (TIMER_A ⟨STATE_WORK, 0, 9, 1380, 0⟩).current_state = STATE_PREPARE_BREAK :=
  ((timeout_column ⟨STATE_WORK, 0, 9, 1380, 0⟩ (by decide) (by decide) rfl).1).2
    (by decide)

/-- C2. Button column: from a phase other than `Off` with a press pending
and a seconds counter that, after the counter update of this tick, does
not exceed the threshold of the phase, one tick gives the button target of
the table (`Work` and `LongBreak` stay), and the press is consumed. -/
theorem button_column (s : State) (hp : isPhase s.current_state)
    (hoff : s.current_state ≠ STATE_OFF) (hb : s.button_press ≠ 0)
    (ht : (updateCounters s).seconds ≤ specTimeoutThreshold s.current_state) :
    (TIMER_A s).current_state = specButtonTarget s.current_state ∧
    (TIMER_A s).button_press = 0 := by
  obtain ⟨h, hflag, _⟩ := TIMER_A_of_phase s hp hoff
  rw [if_neg (not_lt.mpr ht), if_pos hb] at h
  exact ⟨h, hflag⟩

/-- Witness of C2: `ShortBreak` at 100 seconds with a press pending gives
`LongBreak`. -/
theorem button_column_witness :
    (TIMER_A ⟨STATE_SHORT_BREAK, 1, 3, 100, 0⟩).current_state = STATE_LONG_BREAK ∧
    (TIMER_A ⟨STATE_SHORT_BREAK, 1, 3, 100, 0⟩).button_press = 0 :=
  button_column ⟨STATE_SHORT_BREAK, 1, 3, 100, 0⟩ (by decide) (by decide) (by decide)
    (by decide)

/-! ## The pending press -/

/-- Counterexample to C3: in `Off` a pending press is still pending after
the tick. -/
theorem flag_survives_off :
    ¬ ((TIMER_A ⟨STATE_OFF, 1, 0, 0, 0⟩).button_press = 0) := by
  decide

/-- C3, amended. From each of the seven phases other than `Off`, and for
either value of the flag, `button_press` is 0 after one run of `TIMER_A`;
from `Off` the tick leaves the flag as it was. -/
theorem flag_consumed_except_off (s : State) (hp : isPhase s.current_state) :
    (s.current_state ≠ STATE_OFF → (TIMER_A s).button_press = 0) ∧
    (s.current_state = STATE_OFF → (TIMER_A s).button_press = s.button_press) :=
  ⟨fun hoff => (TIMER_A_of_phase s hp hoff).2.1, fun hoff => (TIMER_A_of_off s hoff).2.1⟩

/-- Witness of C3, amended: `Work` with a press pending. -/
theorem flag_consumed_except_off_witness :
    (TIMER_A ⟨STATE_WORK, 1, 0, 0, 0⟩).button_press = 0 :=
  (flag_consumed_except_off ⟨STATE_WORK, 1, 0, 0, 0⟩ (by decide)).1 (by decide)

/-! ## The seconds counter at a change of phase -/

/-- Counterexample to C4: `PrepareBreak` at 50 seconds with a press
pending; the tick changes the phase (to `ShortBreak`) and the seconds
counter is 50 after it, not 0. -/
theorem press_keeps_seconds :
    ¬ ((TIMER_A ⟨STATE_PREPARE_BREAK, 1, 0, 50, 0⟩).current_state ≠ STATE_PREPARE_BREAK →
        (TIMER_A ⟨STATE_PREPARE_BREAK, 1, 0, 50, 0⟩).seconds = 0) := by
  decide

/-- C4, amended. When one tick changes the phase by timeout (the phase is
not `Off` and the seconds counter, after the counter update, exceeds the
threshold of the phase), the seconds counter is 0 after the tick.  When it
changes the phase otherwise, the change is the step out of `Off` or the
effect of a pending press, and the seconds counter keeps the value the
counter update gave it. -/
theorem elapsed_reset_on_timeout (s : State) (hp : isPhase s.current_state)
    (hch : (TIMER_A s).current_state ≠ s.current_state) :
    (s.current_state ≠ STATE_OFF ∧
        (updateCounters s).seconds > specTimeoutThreshold s.current_state →
      (TIMER_A s).seconds = 0) ∧
    (¬ (s.current_state ≠ STATE_OFF ∧
        (updateCounters s).seconds > specTimeoutThreshold s.current_state) →
      (s.current_state = STATE_OFF ∨ s.button_press ≠ 0) ∧
      (TIMER_A s).seconds = (updateCounters s).seconds) := by
  by_cases hoff : s.current_state = STATE_OFF
  · refine ⟨fun h => absurd hoff h.1, fun _ => ⟨Or.inl hoff, (TIMER_A_of_off s hoff).2.2⟩⟩
  · obtain ⟨h1, _, h3⟩ := TIMER_A_of_phase s hp hoff
    refine ⟨fun h => ?_, fun h => ?_⟩
    · rw [h3, if_pos h.2]
    · have ht : ¬ (updateCounters s).seconds > specTimeoutThreshold s.current_state :=
        fun hgt => h ⟨hoff, hgt⟩
      rw [if_neg ht] at h1 h3
      refine ⟨Or.inr (fun hb => hch ?_), h3⟩
      rw [h1, if_neg (not_not.mpr hb)]

/-- Witness of C4, amended: `Work` at 1380 seconds and 9 ticks; the
timeout changes the phase and the counter is 0 after the tick. -/
theorem elapsed_reset_on_timeout_witness :
    (TIMER_A ⟨STATE_WORK, 0, 9, 1380, 0⟩).seconds = 0 :=
  (elapsed_reset_on_timeout ⟨STATE_WORK, 0, 9, 1380, 0⟩ (by decide) (by decide)).1
    (by decide)

/-! ## Press and timeout in the same tick -/

/-- The phases of the table that have a button-press target of their
own. -/
def hasButtonTarget (p : Int) : Prop :=
  p = STATE_TIME_TO_WORK ∨ p = STATE_PREPARE_BREAK ∨ p = STATE_TIME_TO_BREAK ∨
    p = STATE_SHORT_BREAK ∨ p = STATE_PREPARE_WORK

instance (p : Int) : Decidable (hasButtonTarget p) := by
  unfold hasButtonTarget; infer_instance

theorem isPhase_of_hasButtonTarget (p : Int) (h : hasButtonTarget p) :
    isPhase p ∧ p ≠ STATE_OFF := by
  unfold isPhase
  rcases h with h | h | h | h | h <;> subst h <;> decide

/-- Counterexample to C5: `TimeToWork` at 301 seconds with a press
pending; the press is pending, the threshold 300 is exceeded, and the
phase after the tick is `Off`, the timeout target, not `Work`, the
button-press target. -/
theorem timeout_beats_press :
    ¬ ((⟨STATE_TIME_TO_WORK, 1, 0, 301, 0⟩ : State).button_press ≠ 0 →
        (updateCounters ⟨STATE_TIME_TO_WORK, 1, 0, 301, 0⟩).seconds >
          specTimeoutThreshold STATE_TIME_TO_WORK →
        (TIMER_A ⟨STATE_TIME_TO_WORK, 1, 0, 301, 0⟩).current_state =
          specButtonTarget STATE_TIME_TO_WORK) := by
  decide

/-- C5, amended. For every phase that has a button-press target, when a
press is pending and the seconds counter after the counter update exceeds
the threshold of the phase, the phase after the tick is the timeout target
of the table: the timeout is tested after the press and overrides it.  The
press is consumed and the seconds counter is 0. -/
theorem timeout_overrides_button (s : State) (hp : hasButtonTarget s.current_state)
    (_hb : s.button_press ≠ 0)
    (ht : (updateCounters s).seconds > specTimeoutThreshold s.current_state) :
    (TIMER_A s).current_state = specTimeoutTarget s.current_state ∧
    (TIMER_A s).current_state ≠ specButtonTarget s.current_state ∧
    (TIMER_A s).button_press = 0 ∧ (TIMER_A s).seconds = 0 := by
  obtain ⟨hph, hoff⟩ := isPhase_of_hasButtonTarget _ hp
  obtain ⟨h1, h2, h3⟩ := TIMER_A_of_phase s hph hoff
  rw [if_pos ht] at h1 h3
  refine ⟨h1, ?_, h2, h3⟩
  rw [h1]
  rcases hp with h | h | h | h | h <;> rw [h] <;> decide

/-- Witness of C5, amended: `PrepareWork` at 121 seconds with a press
pending gives `TimeToWork`. -/
theorem timeout_overrides_button_witness :
    (TIMER_A ⟨STATE_PREPARE_WORK, 1, 0, 121, 0⟩).current_state =
        specTimeoutTarget STATE_PREPARE_WORK ∧
    (TIMER_A ⟨STATE_PREPARE_WORK, 1, 0, 121, 0⟩).current_state ≠
        specButtonTarget STATE_PREPARE_WORK ∧
    (TIMER_A ⟨STATE_PREPARE_WORK, 1, 0, 121, 0⟩).button_press = 0 ∧
    (TIMER_A ⟨STATE_PREPARE_WORK, 1, 0, 121, 0⟩).seconds = 0 :=
  timeout_overrides_button ⟨STATE_PREPARE_WORK, 1, 0, 121, 0⟩ (by decide) (by decide)
    (by decide)

/-! ## Cold start -/

/-- C6. Cold start: from `Off`, whatever the flag, the counters and the
outputs, one tick yields `TimeToWork`. -/
theorem cold_start (s : State) (hoff : s.current_state = STATE_OFF) :
    (TIMER_A s).current_state = STATE_TIME_TO_WORK :=
  (TIMER_A_of_off s hoff).1

/-- Witness of C6: the state `main` leaves, with a press already
pending. -/
theorem cold_start_witness :
    (TIMER_A (P1_ISR (main 0))).current_state = STATE_TIME_TO_WORK :=
  cold_start (P1_ISR (main 0)) rfl

/-! ## Unattended running -/

/-- The counter update away from the ends of the 16-bit range: `ticks`
cycles through 0..9 and `seconds` gains 1 when `ticks` returns to 0. -/
theorem updateCounters_in_range (s : State) (ht : 0 ≤ s.ticks ∧ s.ticks ≤ 9)
    (hs : 0 ≤ s.seconds ∧ s.seconds < 32767) :
    (updateCounters s).ticks = (s.ticks + 1) % 10 ∧
    (updateCounters s).seconds = (if s.ticks = 9 then s.seconds + 1 else s.seconds) := by
  obtain ⟨cs, bp, t, sec, out⟩ := s
  simp only at ht hs
  have hw : wrapInt (t + 1) = t + 1 := by unfold wrapInt; omega
  have hw2 : wrapInt (sec + 1) = sec + 1 := by unfold wrapInt; omega
  by_cases h9 : t = 9
  · subst h9
    simp [updateCounters, wrapInt]
    omega
  · have hne : t + 1 ≠ 10 := by omega
    have hmod : (t + 1) % 10 = t + 1 := by omega
    simp [updateCounters, hw, hne, h9, hmod]

/-- With no press, a phase other than `Off` entered at 0 seconds and 0
ticks is kept as long as fewer than ten times its threshold plus ten ticks
have run; the counters count the ticks. -/
theorem runTicks_stay (s : State) (hp : isPhase s.current_state)
    (hoff : s.current_state ≠ STATE_OFF) (hb : s.button_press = 0)
    (htk : s.ticks = 0) (hsec : s.seconds = 0)
    (n : Nat) (hn : (n : Int) < 10 * (specTimeoutThreshold s.current_state + 1))
    (hthr : specTimeoutThreshold s.current_state < 32767) :
    (runTicks n s).current_state = s.current_state ∧
    (runTicks n s).button_press = 0 ∧
    (runTicks n s).ticks = (n : Int) % 10 ∧
    (runTicks n s).seconds = (n : Int) / 10 := by
  induction n with
  | zero => simp [runTicks, hb, htk, hsec]
  | succ k ih =>
    obtain ⟨h1, h2, h3, h4⟩ := ih (by push_cast at hn; omega)
    push_cast at hn
    have hp1 : isPhase (runTicks k s).current_state := by rw [h1]; exact hp
    have hoff1 : (runTicks k s).current_state ≠ STATE_OFF := by rw [h1]; exact hoff
    obtain ⟨g1, g2, g3⟩ := TIMER_A_of_phase (runTicks k s) hp1 hoff1
    obtain ⟨u1, u2⟩ := updateCounters_in_range (runTicks k s)
      (by rw [h3]; omega) (by rw [h4]; omega)
    rw [h3] at u1
    rw [h3, h4] at u2
    have hsec1 : (updateCounters (runTicks k s)).seconds = ((k : Int) + 1) / 10 := by
      rw [u2]; split_ifs <;> omega
    have hle : ¬ (updateCounters (runTicks k s)).seconds >
        specTimeoutThreshold (runTicks k s).current_state := by
      rw [hsec1, h1]; omega
    rw [if_neg hle, if_neg (not_not.mpr h2), h1] at g1
    rw [if_neg hle, hsec1] at g3
    refine ⟨g1, g2, ?_, ?_⟩
    · show (TIMER_A (runTicks k s)).ticks = _
      rw [TIMER_A_ticks, u1]; push_cast; omega
    · show (TIMER_A (runTicks k s)).seconds = _
      rw [g3]; push_cast; rfl

/-- C7. Idle auto-off: from `TimeToWork` at 0 seconds and 0 ticks with no
press pending, and no press afterwards, the phase is `TimeToWork` after
each of the first 3009 ticks and `Off` after 3010 ticks. -/
theorem idle_auto_off (s : State) (hcs : s.current_state = STATE_TIME_TO_WORK)
    (hsec : s.seconds = 0) (htk : s.ticks = 0) (hb : s.button_press = 0) :
    (∀ n : Nat, n ≤ 3009 → (runTicks n s).current_state = STATE_TIME_TO_WORK) ∧
    (runTicks 3010 s).current_state = STATE_OFF := by
  have hp : isPhase s.current_state := by rw [hcs]; decide
  have hoff : s.current_state ≠ STATE_OFF := by rw [hcs]; decide
  have hthr : specTimeoutThreshold s.current_state = 300 := by rw [hcs]; rfl
  have stay : ∀ n : Nat, n ≤ 3009 →
      (runTicks n s).current_state = STATE_TIME_TO_WORK ∧
      (runTicks n s).button_press = 0 ∧
      (runTicks n s).ticks = (n : Int) % 10 ∧
      (runTicks n s).seconds = (n : Int) / 10 := by
    intro n hn
    have h := runTicks_stay s hp hoff hb htk hsec n (by rw [hthr]; omega)
      (by rw [hthr]; decide)
    rw [hcs] at h
    exact h
  refine ⟨fun n hn => (stay n hn).1, ?_⟩
  obtain ⟨h1, _, h3, h4⟩ := stay 3009 (le_refl _)
  have hp1 : isPhase (runTicks 3009 s).current_state := by rw [h1]; decide
  have hoff1 : (runTicks 3009 s).current_state ≠ STATE_OFF := by rw [h1]; decide
  have g := (TIMER_A_of_phase (runTicks 3009 s) hp1 hoff1).1
  have u := (updateCounters_in_range (runTicks 3009 s)
    (by rw [h3]; omega) (by rw [h4]; omega)).2
  rw [h3, h4] at u
  have hgt : (updateCounters (runTicks 3009 s)).seconds >
      specTimeoutThreshold (runTicks 3009 s).current_state := by
    rw [u, h1]; decide
  rw [if_pos hgt, h1] at g
  exact g

/-- Witness of C7: the state with phase `TimeToWork`, all counters 0 and
both LEDs off. -/
theorem idle_auto_off_witness :
    (∀ n : Nat, n ≤ 3009 →
      (runTicks n ⟨STATE_TIME_TO_WORK, 0, 0, 0, 0⟩).current_state = STATE_TIME_TO_WORK) ∧
    (runTicks 3010 ⟨STATE_TIME_TO_WORK, 0, 0, 0, 0⟩).current_state = STATE_OFF :=
  idle_auto_off ⟨STATE_TIME_TO_WORK, 0, 0, 0, 0⟩ rfl rfl rfl rfl

/-- C8. Work duration: from `Work` at 0 seconds and 0 ticks with no press
pending, and no press afterwards, the phase is `Work` after each of the
first 13809 ticks; tick 13810 brings the seconds counter to 1381 and the
phase to `PrepareBreak`. -/
theorem work_duration (s : State) (hcs : s.current_state = STATE_WORK)
    (hsec : s.seconds = 0) (htk : s.ticks = 0) (hb : s.button_press = 0) :
    (∀ n : Nat, n ≤ 13809 → (runTicks n s).current_state = STATE_WORK) ∧
    (updateCounters (runTicks 13809 s)).seconds = 1381 ∧
    (runTicks 13810 s).current_state = STATE_PREPARE_BREAK := by
  have hp : isPhase s.current_state := by rw [hcs]; decide
  have hoff : s.current_state ≠ STATE_OFF := by rw [hcs]; decide
  have hthr : specTimeoutThreshold s.current_state = 1380 := by rw [hcs]; rfl
  have stay : ∀ n : Nat, n ≤ 13809 →
      (runTicks n s).current_state = STATE_WORK ∧
      (runTicks n s).button_press = 0 ∧
      (runTicks n s).ticks = (n : Int) % 10 ∧
      (runTicks n s).seconds = (n : Int) / 10 := by
    intro n hn
    have h := runTicks_stay s hp hoff hb htk hsec n (by rw [hthr]; omega)
      (by rw [hthr]; decide)
    rw [hcs] at h
    exact h
  obtain ⟨h1, _, h3, h4⟩ := stay 13809 (le_refl _)
  have hp1 : isPhase (runTicks 13809 s).current_state := by rw [h1]; decide
  have hoff1 : (runTicks 13809 s).current_state ≠ STATE_OFF := by rw [h1]; decide
  have g := (TIMER_A_of_phase (runTicks 13809 s) hp1 hoff1).1
  have u := (updateCounters_in_range (runTicks 13809 s)
    (by rw [h3]; omega) (by rw [h4]; omega)).2
  rw [h3, h4] at u
  have u1 : (updateCounters (runTicks 13809 s)).seconds = 1381 := by
    rw [u]; decide
  have hgt : (updateCounters (runTicks 13809 s)).seconds >
      specTimeoutThreshold (runTicks 13809 s).current_state := by
    rw [u1, h1]; decide
  rw [if_pos hgt, h1] at g
  exact ⟨fun n hn => (stay n hn).1, u1, g⟩

/-- Witness of C8: the state with phase `Work`, all counters 0 and the red
LED lit. -/
theorem work_duration_witness :
    (∀ n : Nat, n ≤ 13809 →
      (runTicks n ⟨STATE_WORK, 0, 0, 0, 1⟩).current_state = STATE_WORK) ∧
    (updateCounters (runTicks 13809 ⟨STATE_WORK, 0, 0, 0, 1⟩)).seconds = 1381 ∧
    (runTicks 13810 ⟨STATE_WORK, 0, 0, 0, 1⟩).current_state = STATE_PREPARE_BREAK :=
  work_duration ⟨STATE_WORK, 0, 0, 0, 1⟩ rfl rfl rfl rfl

/-! ## The indicator -/

/-- Mapping table of the specification: the pair (red, green) for a
phase, a value of the ticks counter and a value of the seconds counter. -/
def specIndicator (p t sec : Int) : Bool × Bool :=
  if p = STATE_OFF then (false, false)
  else if p = STATE_TIME_TO_WORK then (decide (t % 2 = 1), false)
  else if p = STATE_WORK then (true, false)
  else if p = STATE_PREPARE_BREAK then (decide (sec % 4 ≠ 0), false)
  else if p = STATE_TIME_TO_BREAK then (false, decide (t % 2 = 1))
  else if p = STATE_SHORT_BREAK then (false, true)
  else if p = STATE_LONG_BREAK then (false, true)
  else if p = STATE_PREPARE_WORK then (false, decide (sec % 4 ≠ 0))
  else (false, false)

/-- The outputs of a state are those of the table for its phase and
counters, and the phase is one of the eight. -/
def ledsAgree (s : State) : Prop :=
  isPhase s.current_state ∧
    (redOn s, greenOn s) = specIndicator s.current_state s.ticks s.seconds

theorem greenBit_clearBits_green (p : Nat) : greenBit (clearBits p GREEN_LED) = false := by
  have h : Nat.testBit (0xFF ^^^ GREEN_LED) 6 = false := by decide
  unfold greenBit clearBits
  rw [Nat.testBit_and, h, Bool.and_false]

theorem redBit_clearBits_green (p : Nat) : redBit (clearBits p GREEN_LED) = redBit p := by
  have h : Nat.testBit (0xFF ^^^ GREEN_LED) 0 = true := by decide
  unfold redBit clearBits
  rw [Nat.testBit_and, h, Bool.and_true]

theorem redBit_clearBits_red (p : Nat) : redBit (clearBits p RED_LED) = false := by
  have h : Nat.testBit (0xFF ^^^ RED_LED) 0 = false := by decide
  unfold redBit clearBits
  rw [Nat.testBit_and, h, Bool.and_false]

theorem greenBit_clearBits_red (p : Nat) : greenBit (clearBits p RED_LED) = greenBit p := by
  have h : Nat.testBit (0xFF ^^^ RED_LED) 6 = true := by decide
  unfold greenBit clearBits
  rw [Nat.testBit_and, h, Bool.and_true]

theorem greenBit_setBits_green (p : Nat) : greenBit (setBits p GREEN_LED) = true := by
  have h : Nat.testBit GREEN_LED 6 = true := by decide
  have h8 : decide (6 < 8) = true := by decide
  unfold greenBit setBits
  rw [show (256 : Nat) = 2 ^ 8 from rfl, Nat.testBit_mod_two_pow, Nat.testBit_or, h, h8,
    Bool.or_true, Bool.and_true]

theorem redBit_setBits_green (p : Nat) : redBit (setBits p GREEN_LED) = redBit p := by
  have h : Nat.testBit GREEN_LED 0 = false := by decide
  have h8 : decide (0 < 8) = true := by decide
  unfold redBit setBits
  rw [show (256 : Nat) = 2 ^ 8 from rfl, Nat.testBit_mod_two_pow, Nat.testBit_or, h, h8,
    Bool.or_false, Bool.true_and]

theorem redBit_setBits_red (p : Nat) : redBit (setBits p RED_LED) = true := by
  have h : Nat.testBit RED_LED 0 = true := by decide
  have h8 : decide (0 < 8) = true := by decide
  unfold redBit setBits
  rw [show (256 : Nat) = 2 ^ 8 from rfl, Nat.testBit_mod_two_pow, Nat.testBit_or, h, h8,
    Bool.or_true, Bool.and_true]

theorem greenBit_setBits_red (p : Nat) : greenBit (setBits p RED_LED) = greenBit p := by
  have h : Nat.testBit RED_LED 6 = false := by decide
  have h8 : decide (6 < 8) = true := by decide
  unfold greenBit setBits
  rw [show (256 : Nat) = 2 ^ 8 from rfl, Nat.testBit_mod_two_pow, Nat.testBit_or, h, h8,
    Bool.or_false, Bool.true_and]

theorem redBit_zero : redBit 0 = false := by decide

theorem greenBit_zero : greenBit 0 = false := by decide

/-- The test `(x % 2) == 0` of C, with the truncating `%`, holds exactly
when `x` is not odd. -/
theorem tmod_two_eq_zero_iff (x : Int) : Int.tmod x 2 = 0 ↔ ¬ x % 2 = 1 := by
  rw [← Int.dvd_iff_tmod_eq_zero]
  omega

/-- The test `(x % 4) == 0` of C, with the truncating `%`, holds exactly
when `x` is a multiple of 4. -/
theorem tmod_four_eq_zero_iff (x : Int) : Int.tmod x 4 = 0 ↔ x % 4 = 0 := by
  rw [← Int.dvd_iff_tmod_eq_zero]
  omega

/-- The red output after the second `switch`: `PrepareWork` leaves it as
it was, every other phase sets it to the value of the table. -/
theorem actions_redOn (u : State) (hp : isPhase u.current_state) :
    redOn (actions u) =
      if u.current_state = STATE_PREPARE_WORK then redOn u
      else (specIndicator u.current_state u.ticks u.seconds).1 := by
  obtain ⟨cs, bp, t, sec, out⟩ := u
  obtain ⟨h0, h7⟩ := hp
  simp only [STATE_OFF, STATE_PREPARE_WORK] at h0 h7
  have hcases : cs = 0 ∨ cs = 1 ∨ cs = 2 ∨ cs = 3 ∨ cs = 4 ∨ cs = 5 ∨ cs = 6 ∨ cs = 7 := by
    omega
  rcases hcases with h | h | h | h | h | h | h | h <;> subst h <;>
    simp [actions, specIndicator, redOn, tmod_two_eq_zero_iff, tmod_four_eq_zero_iff] <;>
    (try split_ifs) <;>
    simp_all [redBit_clearBits_green, redBit_clearBits_red, redBit_setBits_green,
      redBit_setBits_red, redBit_zero]

/-- The green output after the second `switch`: `PrepareBreak` leaves it
as it was, every other phase sets it to the value of the table. -/
theorem actions_greenOn (u : State) (hp : isPhase u.current_state) :
    greenOn (actions u) =
      if u.current_state = STATE_PREPARE_BREAK then greenOn u
      else (specIndicator u.current_state u.ticks u.seconds).2 := by
  obtain ⟨cs, bp, t, sec, out⟩ := u
  obtain ⟨h0, h7⟩ := hp
  simp only [STATE_OFF, STATE_PREPARE_WORK] at h0 h7
  have hcases : cs = 0 ∨ cs = 1 ∨ cs = 2 ∨ cs = 3 ∨ cs = 4 ∨ cs = 5 ∨ cs = 6 ∨ cs = 7 := by
    omega
  rcases hcases with h | h | h | h | h | h | h | h <;> subst h <;>
    simp [actions, specIndicator, greenOn, tmod_two_eq_zero_iff, tmod_four_eq_zero_iff] <;>
    (try split_ifs) <;>
    simp_all [greenBit_clearBits_green, greenBit_clearBits_red, greenBit_setBits_green,
      greenBit_setBits_red, greenBit_zero]

/-- The outputs after one tick, from the phase and counters after the
tick and the outputs before it. -/
theorem TIMER_A_leds (s : State) (hp : isPhase (TIMER_A s).current_state) :
    redOn (TIMER_A s) =
      (if (TIMER_A s).current_state = STATE_PREPARE_WORK then redOn s
        else (specIndicator (TIMER_A s).current_state (TIMER_A s).ticks
          (TIMER_A s).seconds).1) ∧
    greenOn (TIMER_A s) =
      (if (TIMER_A s).current_state = STATE_PREPARE_BREAK then greenOn s
        else (specIndicator (TIMER_A s).current_state (TIMER_A s).ticks
          (TIMER_A s).seconds).2) := by
  have hr : redOn (transitions (updateCounters s)) = redOn s := by
    unfold redOn
    rw [transitions_P1OUT, updateCounters_P1OUT]
  have hg : greenOn (transitions (updateCounters s)) = greenOn s := by
    unfold greenOn
    rw [transitions_P1OUT, updateCounters_P1OUT]
  unfold TIMER_A at hp ⊢
  rw [actions_current_state] at hp
  rw [actions_redOn _ hp, actions_greenOn _ hp, actions_current_state, actions_ticks,
    actions_seconds, hr, hg]
  exact ⟨rfl, rfl⟩

/-- One tick changes the phase at most once: the phase after the tick is
the phase before it, or its button-press target, or its timeout target
(for `Off`: `TimeToWork`). -/
theorem TIMER_A_phase_cases (s : State) (hp : isPhase s.current_state) :
    (TIMER_A s).current_state = s.current_state ∨
    (s.current_state ≠ STATE_OFF ∧
      (TIMER_A s).current_state = specButtonTarget s.current_state) ∨
    (TIMER_A s).current_state =
      (if s.current_state = STATE_OFF then STATE_TIME_TO_WORK
        else specTimeoutTarget s.current_state) := by
  by_cases hoff : s.current_state = STATE_OFF
  · right; right
    rw [if_pos hoff]
    exact (TIMER_A_of_off s hoff).1
  · have h := (TIMER_A_of_phase s hp hoff).1
    rw [if_neg hoff]
    split_ifs at h with h1 h2
    · exact Or.inr (Or.inr h)
    · exact Or.inr (Or.inl ⟨hoff, h⟩)
    · exact Or.inl h

/-- The eight nodes are closed under a tick. -/
theorem TIMER_A_isPhase (s : State) (hp : isPhase s.current_state) :
    isPhase (TIMER_A s).current_state := by
  have h := TIMER_A_phase_cases s hp
  obtain ⟨h0, h7⟩ := hp
  simp only [STATE_OFF, STATE_PREPARE_WORK] at h0 h7
  have hcases : s.current_state = 0 ∨ s.current_state = 1 ∨ s.current_state = 2 ∨
      s.current_state = 3 ∨ s.current_state = 4 ∨ s.current_state = 5 ∨
      s.current_state = 6 ∨ s.current_state = 7 := by
    omega
  unfold isPhase
  rcases hcases with c | c | c | c | c | c | c | c <;> rw [c] at h <;>
    rcases h with h | ⟨_, h⟩ | h <;> rw [h] <;> decide

/-- The only phases a tick can end in `PrepareBreak` from are `Work` and
`PrepareBreak`. -/
theorem phase_before_prepare_break (s : State) (hp : isPhase s.current_state)
    (h : (TIMER_A s).current_state = STATE_PREPARE_BREAK) :
    s.current_state = STATE_WORK ∨ s.current_state = STATE_PREPARE_BREAK := by
  have hc := TIMER_A_phase_cases s hp
  rw [h] at hc
  obtain ⟨h0, h7⟩ := hp
  simp only [STATE_OFF, STATE_PREPARE_WORK] at h0 h7
  have hcases : s.current_state = 0 ∨ s.current_state = 1 ∨ s.current_state = 2 ∨
      s.current_state = 3 ∨ s.current_state = 4 ∨ s.current_state = 5 ∨
      s.current_state = 6 ∨ s.current_state = 7 := by
    omega
  rcases hcases with c | c | c | c | c | c | c | c <;> rw [c] at hc ⊢ <;>
    simp [specButtonTarget, specTimeoutTarget] at hc ⊢

/-- The only phases a tick can end in `PrepareWork` from are `ShortBreak`,
`LongBreak` and `PrepareWork`. -/
theorem phase_before_prepare_work (s : State) (hp : isPhase s.current_state)
    (h : (TIMER_A s).current_state = STATE_PREPARE_WORK) :
    s.current_state = STATE_SHORT_BREAK ∨ s.current_state = STATE_LONG_BREAK ∨
      s.current_state = STATE_PREPARE_WORK := by
  have hc := TIMER_A_phase_cases s hp
  rw [h] at hc
  obtain ⟨h0, h7⟩ := hp
  simp only [STATE_OFF, STATE_PREPARE_WORK] at h0 h7
  have hcases : s.current_state = 0 ∨ s.current_state = 1 ∨ s.current_state = 2 ∨
      s.current_state = 3 ∨ s.current_state = 4 ∨ s.current_state = 5 ∨
      s.current_state = 6 ∨ s.current_state = 7 := by
    omega
  rcases hcases with c | c | c | c | c | c | c | c <;> rw [c] at hc ⊢ <;>
    simp [specButtonTarget, specTimeoutTarget] at hc ⊢

/-- A tick keeps the outputs in agreement with the table. -/
theorem ledsAgree_TIMER_A (s : State) (h : ledsAgree s) : ledsAgree (TIMER_A s) := by
  obtain ⟨hp, hl⟩ := h
  have hp1 := TIMER_A_isPhase s hp
  obtain ⟨hr, hg⟩ := TIMER_A_leds s hp1
  have hred : redOn s = (specIndicator s.current_state s.ticks s.seconds).1 :=
    congrArg Prod.fst hl
  have hgreen : greenOn s = (specIndicator s.current_state s.ticks s.seconds).2 :=
    congrArg Prod.snd hl
  refine ⟨hp1, Prod.ext ?_ ?_⟩
  · show redOn (TIMER_A s) = _
    rw [hr]
    split_ifs with hw
    · rw [hw, hred]
      rcases phase_before_prepare_work s hp hw with c | c | c <;> rw [c] <;>
        simp [specIndicator]
    · rfl
  · show greenOn (TIMER_A s) = _
    rw [hg]
    split_ifs with hb
    · rw [hb, hgreen]
      rcases phase_before_prepare_break s hp hb with c | c <;> rw [c] <;>
        simp [specIndicator]
    · rfl

/-- A button press keeps the outputs in agreement with the table. -/
theorem ledsAgree_P1_ISR (s : State) (h : ledsAgree s) : ledsAgree (P1_ISR s) := h

/-- The state `main` leaves agrees with the table: `Off`, both LEDs
off. -/
theorem ledsAgree_main (p0 : Nat) : ledsAgree (main p0) := by
  have hr : redBit (setBits (clearBits p0 (GREEN_LED ||| RED_LED)) BUTTON) = false := by
    have h1 : Nat.testBit (0xFF ^^^ (GREEN_LED ||| RED_LED)) 0 = false := by decide
    have h2 : Nat.testBit BUTTON 0 = false := by decide
    unfold redBit setBits clearBits
    rw [show (256 : Nat) = 2 ^ 8 from rfl, Nat.testBit_mod_two_pow, Nat.testBit_or,
      Nat.testBit_and, h1, h2, Bool.and_false, Bool.or_false, Bool.and_false]
  have hg : greenBit (setBits (clearBits p0 (GREEN_LED ||| RED_LED)) BUTTON) = false := by
    have h1 : Nat.testBit (0xFF ^^^ (GREEN_LED ||| RED_LED)) 6 = false := by decide
    have h2 : Nat.testBit BUTTON 6 = false := by decide
    unfold greenBit setBits clearBits
    rw [show (256 : Nat) = 2 ^ 8 from rfl, Nat.testBit_mod_two_pow, Nat.testBit_or,
      Nat.testBit_and, h1, h2, Bool.and_false, Bool.or_false, Bool.and_false]
  have hphase : isPhase STATE_OFF := by decide
  refine ⟨hphase, ?_⟩
  show (redBit (setBits (clearBits p0 (GREEN_LED ||| RED_LED)) BUTTON),
    greenBit (setBits (clearBits p0 (GREEN_LED ||| RED_LED)) BUTTON)) =
      specIndicator STATE_OFF 0 0
  rw [hr, hg]
  rfl

/-- Every state reached from the state `main` leaves, by ticks and button
presses, agrees with the table. -/
theorem ledsAgree_run (evs : List Event) (s : State) (h : ledsAgree s) :
    ledsAgree (run evs s) := by
  induction evs generalizing s with
  | nil => exact h
  | cons e es ih =>
    show ledsAgree (run es (handle s e))
    apply ih
    cases e
    · exact ledsAgree_TIMER_A s h
    · exact ledsAgree_P1_ISR s h

/-- C9. Indicator mapping: for every state reached from the state `main`
leaves (whatever `P1OUT` held at power-up) by any sequence of ticks and
button presses, the pair (red, green) after a tick is the pair of the
table for the phase, the ticks counter and the seconds counter after that
tick. -/
theorem indicator_mapping (p0 : Nat) (evs : List Event) :
    (redOn (TIMER_A (run evs (main p0))), greenOn (TIMER_A (run evs (main p0)))) =
      specIndicator (TIMER_A (run evs (main p0))).current_state
        (TIMER_A (run evs (main p0))).ticks (TIMER_A (run evs (main p0))).seconds :=
  (ledsAgree_TIMER_A _ (ledsAgree_run evs (main p0) (ledsAgree_main p0))).2

/-- Counterexample to C10: two states in `PrepareBreak` with equal
counters, one with the green LED lit and one with both LEDs off.  The
ticks end with the same phase, ticks and seconds, and the green outputs
differ. -/
theorem green_depends_on_previous_output :
    ¬ ((TIMER_A ⟨STATE_PREPARE_BREAK, 0, 0, 0, GREEN_LED⟩).current_state =
          (TIMER_A ⟨STATE_PREPARE_BREAK, 0, 0, 0, 0⟩).current_state →
        (TIMER_A ⟨STATE_PREPARE_BREAK, 0, 0, 0, GREEN_LED⟩).ticks =
          (TIMER_A ⟨STATE_PREPARE_BREAK, 0, 0, 0, 0⟩).ticks →
        (TIMER_A ⟨STATE_PREPARE_BREAK, 0, 0, 0, GREEN_LED⟩).seconds =
          (TIMER_A ⟨STATE_PREPARE_BREAK, 0, 0, 0, 0⟩).seconds →
        redOn (TIMER_A ⟨STATE_PREPARE_BREAK, 0, 0, 0, GREEN_LED⟩) =
          redOn (TIMER_A ⟨STATE_PREPARE_BREAK, 0, 0, 0, 0⟩) ∧
        greenOn (TIMER_A ⟨STATE_PREPARE_BREAK, 0, 0, 0, GREEN_LED⟩) =
          greenOn (TIMER_A ⟨STATE_PREPARE_BREAK, 0, 0, 0, 0⟩)) := by
  decide

/-- C10, amended. For any two states before the tick, reachable or not,
whose ticks end with the same phase (one of the eight), the same ticks
counter and the same seconds counter, the red and green outputs after the
tick are equal, provided the green outputs were equal before the tick
when that phase is `PrepareBreak` and the red outputs were equal before
the tick when it is `PrepareWork`: these two phases drive one LED and
leave the other as it was. -/
theorem indicator_function_of_phase (s1 s2 : State)
    (hcs : (TIMER_A s1).current_state = (TIMER_A s2).current_state)
    (htk : (TIMER_A s1).ticks = (TIMER_A s2).ticks)
    (hsec : (TIMER_A s1).seconds = (TIMER_A s2).seconds)
    (hp : isPhase (TIMER_A s1).current_state)
    (hgreen : (TIMER_A s1).current_state = STATE_PREPARE_BREAK → greenOn s1 = greenOn s2)
    (hred : (TIMER_A s1).current_state = STATE_PREPARE_WORK → redOn s1 = redOn s2) :
    redOn (TIMER_A s1) = redOn (TIMER_A s2) ∧
    greenOn (TIMER_A s1) = greenOn (TIMER_A s2) := by
  obtain ⟨r1, g1⟩ := TIMER_A_leds s1 hp
  obtain ⟨r2, g2⟩ := TIMER_A_leds s2 (hcs ▸ hp)
  rw [r1, g1, r2, g2, ← hcs, ← htk, ← hsec]
  constructor
  · split_ifs with h
    · exact hred h
    · rfl
  · split_ifs with h
    · exact hgreen h
    · rfl

/-- Witness of C10, amended: two states in `Work` at 3 ticks and 7
seconds, one with the green LED lit and one with the red LED lit; after
the tick the outputs are equal. -/
theorem indicator_function_of_phase_witness :
    redOn (TIMER_A ⟨STATE_WORK, 0, 3, 7, GREEN_LED⟩) =
        redOn (TIMER_A ⟨STATE_WORK, 0, 3, 7, RED_LED⟩) ∧
    greenOn (TIMER_A ⟨STATE_WORK, 0, 3, 7, GREEN_LED⟩) =
        greenOn (TIMER_A ⟨STATE_WORK, 0, 3, 7, RED_LED⟩) :=
  indicator_function_of_phase ⟨STATE_WORK, 0, 3, 7, GREEN_LED⟩ ⟨STATE_WORK, 0, 3, 7, RED_LED⟩
    (by decide) (by decide) (by decide) (by decide) (by decide) (by decide)

/-! ## The counters -/

/-- The ticks counter after the counter update, for a counter in 0..9. -/
theorem updateCounters_ticks (s : State) (ht : 0 ≤ s.ticks ∧ s.ticks ≤ 9) :
    (updateCounters s).ticks = (s.ticks + 1) % 10 := by
  obtain ⟨cs, bp, t, sec, out⟩ := s
  simp only at ht
  have hw : wrapInt (t + 1) = t + 1 := by unfold wrapInt; omega
  by_cases h9 : t = 9
  · subst h9
    simp [updateCounters, wrapInt]
  · have hne : t + 1 ≠ 10 := by omega
    have hmod : (t + 1) % 10 = t + 1 := by omega
    simp [updateCounters, hw, hne, hmod]

/-- The seconds counter after the counter update, for a ticks counter in
0..9: incremented, in 16-bit arithmetic, when the ticks counter was 9. -/
theorem updateCounters_seconds (s : State) (ht : 0 ≤ s.ticks ∧ s.ticks ≤ 9) :
    (updateCounters s).seconds =
      (if s.ticks = 9 then wrapInt (s.seconds + 1) else s.seconds) := by
  obtain ⟨cs, bp, t, sec, out⟩ := s
  simp only at ht
  have hw : wrapInt (t + 1) = t + 1 := by unfold wrapInt; omega
  by_cases h9 : t = 9
  · subst h9
    simp [updateCounters, wrapInt]
  · have hne : t + 1 ≠ 10 := by omega
    simp [updateCounters, hw, hne, h9]

/-- A tick that leaves the phase unchanged leaves the seconds counter as
the counter update gave it. -/
theorem seconds_of_same_phase (s : State)
    (hsame : (TIMER_A s).current_state = s.current_state) :
    (TIMER_A s).seconds = (updateCounters s).seconds := by
  by_cases hp : isPhase s.current_state
  · by_cases hoff : s.current_state = STATE_OFF
    · have h := (TIMER_A_of_off s hoff).1
      rw [hsame, hoff] at h
      exact absurd h (by decide)
    · obtain ⟨h1, _, h3⟩ := TIMER_A_of_phase s hp hoff
      by_cases ht : (updateCounters s).seconds > specTimeoutThreshold s.current_state
      · rw [if_pos ht, hsame] at h1
        exact absurd h1.symm (specTimeoutTarget_ne _ hp hoff)
      · rw [if_neg ht] at h3
        exact h3
  · have hp1 : ¬ isPhase (updateCounters s).current_state := by
      rw [updateCounters_current_state]; exact hp
    rw [TIMER_A_seconds, transitions_of_not_phase _ hp1]

/-- C11. Seconds are reset only on a phase change: for every state with a
ticks counter in 0..9, if one tick leaves the phase unchanged, the
seconds counter after the tick is the counter before it when ticks was
not 9, and the counter before it plus 1 when ticks was 9, for every value
of the counter for which `seconds++` is defined (a 16-bit value below
32767; the handler never holds more than 1380).  In every case the value
is the increment of the machine, `wrapInt (seconds + 1)`: the counter is
not reset to 0. -/
theorem seconds_kept_without_phase_change (s : State)
    (ht : 0 ≤ s.ticks ∧ s.ticks ≤ 9)
    (hsame : (TIMER_A s).current_state = s.current_state) :
    (s.ticks ≠ 9 → (TIMER_A s).seconds = s.seconds) ∧
    (s.ticks = 9 → (TIMER_A s).seconds = wrapInt (s.seconds + 1)) ∧
    (s.ticks = 9 → -32768 ≤ s.seconds → s.seconds < 32767 →
      (TIMER_A s).seconds = s.seconds + 1) := by
  have h := seconds_of_same_phase s hsame
  rw [updateCounters_seconds s ht] at h
  refine ⟨fun h9 => ?_, fun h9 => ?_, fun h9 hlo hhi => ?_⟩
  · rw [h, if_neg h9]
  · rw [h, if_pos h9]
  · rw [h, if_pos h9]
    unfold wrapInt
    omega

/-- Witness of C11: `LongBreak` at 9 ticks and 41 seconds; the
phase is kept and the counter is 42 after the tick. -/
theorem seconds_kept_without_phase_change_witness :
    (TIMER_A ⟨STATE_LONG_BREAK, 0, 9, 41, 0⟩).seconds = 41 + 1 :=
  (seconds_kept_without_phase_change ⟨STATE_LONG_BREAK, 0, 9, 41, 0⟩ (by decide)
    (by decide)).2.2 rfl (by decide) (by decide)

/-- C12. No double transition per tick: for every state, the phase after
one tick is the phase before it, or the button-press target of the phase
before it, or the timeout target of the phase before it (for `Off`:
`TimeToWork`).  The row of the table that is applied is the row of the
phase before the tick, never that of the phase entered. -/
theorem no_double_transition (s : State) :
    (TIMER_A s).current_state = s.current_state ∨
    (isPhase s.current_state ∧ s.current_state ≠ STATE_OFF ∧
      (TIMER_A s).current_state = specButtonTarget s.current_state) ∨
    (isPhase s.current_state ∧
      (TIMER_A s).current_state =
        (if s.current_state = STATE_OFF then STATE_TIME_TO_WORK
          else specTimeoutTarget s.current_state)) := by
  by_cases hp : isPhase s.current_state
  · rcases TIMER_A_phase_cases s hp with h | ⟨hoff, h⟩ | h
    · exact Or.inl h
    · exact Or.inr (Or.inl ⟨hp, hoff, h⟩)
    · exact Or.inr (Or.inr ⟨hp, h⟩)
  · have hp1 : ¬ isPhase (updateCounters s).current_state := by
      rw [updateCounters_current_state]; exact hp
    left
    rw [TIMER_A_current_state, transitions_of_not_phase _ hp1,
      updateCounters_current_state]

/-! ## The button handler -/

/-- C13. Button handler frame: for every state, `P1_ISR` sets the flag
`button_press` (to 1) and leaves the phase, the seconds counter, the
ticks counter, the port and so both LED outputs unchanged. -/
theorem button_handler_frame (s : State) :
    (P1_ISR s).button_press = 1 ∧ (P1_ISR s).button_press ≠ 0 ∧
    (P1_ISR s).current_state = s.current_state ∧
    (P1_ISR s).seconds = s.seconds ∧
    (P1_ISR s).ticks = s.ticks ∧
    (P1_ISR s).P1OUT = s.P1OUT ∧
    redOn (P1_ISR s) = redOn s ∧ greenOn (P1_ISR s) = greenOn s :=
  ⟨rfl, Int.one_ne_zero, rfl, rfl, rfl, rfl, rfl, rfl⟩

theorem P1_ISR_idem (s : State) : P1_ISR (P1_ISR s) = P1_ISR s := rfl

theorem presses_succ (n : Nat) (s : State) : presses (n + 1) s = P1_ISR s := by
  induction n with
  | zero => rfl
  | succ k ih =>
    show P1_ISR (presses (k + 1) s) = P1_ISR s
    rw [ih, P1_ISR_idem]

/-- C14. Press coalescing: for every state, running `P1_ISR` twice, or
any positive number of times, gives the state that running it once gives;
so the tick that follows several presses gives what it gives after a
single press. -/
theorem press_coalescing (s : State) (n : Nat) (hn : 0 < n) :
    P1_ISR (P1_ISR s) = P1_ISR s ∧
    presses n s = P1_ISR s ∧
    TIMER_A (presses n s) = TIMER_A (P1_ISR s) := by
  obtain ⟨k, rfl⟩ := Nat.exists_eq_succ_of_ne_zero (Nat.pos_iff_ne_zero.mp hn)
  have h := presses_succ k s
  exact ⟨rfl, h, by rw [h]⟩

/-- Witness of C14: three presses in `TimeToWork`. -/
theorem press_coalescing_witness :
    P1_ISR (P1_ISR ⟨STATE_TIME_TO_WORK, 0, 4, 2, 0⟩) = P1_ISR ⟨STATE_TIME_TO_WORK, 0, 4, 2, 0⟩ ∧
    presses 3 ⟨STATE_TIME_TO_WORK, 0, 4, 2, 0⟩ = P1_ISR ⟨STATE_TIME_TO_WORK, 0, 4, 2, 0⟩ ∧
    TIMER_A (presses 3 ⟨STATE_TIME_TO_WORK, 0, 4, 2, 0⟩) =
      TIMER_A (P1_ISR ⟨STATE_TIME_TO_WORK, 0, 4, 2, 0⟩) :=
  press_coalescing ⟨STATE_TIME_TO_WORK, 0, 4, 2, 0⟩ 3 (by decide)

/-- C16. The ticks counter cycles through 0..9 independently of the
phase: for every state with a ticks counter in 0..9, whatever the phase
and the flag, the ticks counter after one tick is (ticks + 1) mod 10,
whether or not the tick changed the phase. -/
theorem ticks_cycle (s : State) (ht : 0 ≤ s.ticks ∧ s.ticks ≤ 9) :
    (TIMER_A s).ticks = (s.ticks + 1) % 10 := by
  rw [TIMER_A_ticks, updateCounters_ticks s ht]

/-- Witness of C16: `TimeToWork` at 9 ticks and 301 seconds; the tick
changes the phase and the ticks counter is 0 after it. -/
theorem ticks_cycle_witness :
    (TIMER_A ⟨STATE_TIME_TO_WORK, 1, 9, 301, 0⟩).ticks = (9 + 1) % 10 :=
  ticks_cycle ⟨STATE_TIME_TO_WORK, 1, 9, 301, 0⟩ (by decide)

/-! ## Reachable states -/

theorem specTimeoutThreshold_le (p : Int) : specTimeoutThreshold p ≤ 1380 := by
  unfold specTimeoutThreshold
  split_ifs <;> decide

theorem specButtonTarget_ne_off (p : Int) : specButtonTarget p ≠ STATE_OFF := by
  unfold specButtonTarget
  split_ifs <;> decide

/-- The bounds, together with the fact that makes them inductive: in
`Off` the seconds counter is 0. -/
def boundsInv (s : State) : Prop :=
  inBounds s ∧ (s.current_state = STATE_OFF → s.seconds = 0)

/-- A tick keeps the bounds. -/
theorem boundsInv_TIMER_A (s : State) (h : boundsInv s) : boundsInv (TIMER_A s) := by
  obtain ⟨⟨hp, ht, hs⟩, hz⟩ := h
  have hp1 : isPhase (TIMER_A s).current_state := TIMER_A_isPhase s hp
  obtain ⟨u1, u2⟩ := updateCounters_in_range s ht ⟨hs.1, by omega⟩
  have htk : (TIMER_A s).ticks = (s.ticks + 1) % 10 := by rw [TIMER_A_ticks, u1]
  have htk1 : 0 ≤ (TIMER_A s).ticks ∧ (TIMER_A s).ticks ≤ 9 := by rw [htk]; omega
  have hu : 0 ≤ (updateCounters s).seconds ∧
      (updateCounters s).seconds ≤ s.seconds + 1 := by
    rw [u2]; split_ifs <;> omega
  by_cases hoff : s.current_state = STATE_OFF
  · obtain ⟨g1, _, g3⟩ := TIMER_A_of_off s hoff
    have h0 := hz hoff
    refine ⟨⟨hp1, htk1, ?_⟩, fun hc => ?_⟩
    · rw [g3]; omega
    · rw [g1] at hc
      exact absurd hc (by decide)
  · obtain ⟨g1, _, g3⟩ := TIMER_A_of_phase s hp hoff
    have hthr := specTimeoutThreshold_le s.current_state
    by_cases hgt : (updateCounters s).seconds > specTimeoutThreshold s.current_state
    · rw [if_pos hgt] at g3
      refine ⟨⟨hp1, htk1, ?_⟩, fun _ => g3⟩
      rw [g3]; decide
    · rw [if_neg hgt] at g1 g3
      refine ⟨⟨hp1, htk1, ?_⟩, fun hc => ?_⟩
      · rw [g3]; omega
      · rw [g1] at hc
        split_ifs at hc
        · exact absurd hc (specButtonTarget_ne_off _)
        · exact absurd hc hoff

/-- A button press keeps the bounds. -/
theorem boundsInv_P1_ISR (s : State) (h : boundsInv s) : boundsInv (P1_ISR s) := h

/-- The state `main` leaves is within the bounds. -/
theorem boundsInv_main (p0 : Nat) : boundsInv (main p0) :=
  ⟨⟨(by decide : isPhase STATE_OFF), (by decide : (0 : Int) ≤ 0 ∧ (0 : Int) ≤ 9),
    (by decide : (0 : Int) ≤ 0 ∧ (0 : Int) ≤ 1380)⟩, fun _ => rfl⟩

theorem boundsInv_run (evs : List Event) (s : State) (h : boundsInv s) :
    boundsInv (run evs s) := by
  induction evs generalizing s with
  | nil => exact h
  | cons e es ih =>
    show boundsInv (run es (handle s e))
    apply ih
    cases e
    · exact boundsInv_TIMER_A s h
    · exact boundsInv_P1_ISR s h

/-- C17. Reachable-state bounds: every state reached from the state
`main` leaves by any sequence of ticks and button presses, hence the
state after each tick, has a phase among the eight nodes, a ticks counter
in 0..9 and a seconds counter in 0..1380; the two increments of the next
tick stay within the 16-bit range. -/
theorem reachable_bounds (p0 : Nat) (evs : List Event) :
    inBounds (run evs (main p0)) ∧
    inBounds (TIMER_A (run evs (main p0))) ∧
    wrapInt ((run evs (main p0)).ticks + 1) = (run evs (main p0)).ticks + 1 ∧
    wrapInt ((run evs (main p0)).seconds + 1) = (run evs (main p0)).seconds + 1 := by
  have h := boundsInv_run evs (main p0) (boundsInv_main p0)
  have h1 := boundsInv_TIMER_A _ h
  have hb := h.1
  obtain ⟨⟨_, ht, hs⟩, _⟩ := h
  refine ⟨hb, h1.1, ?_, ?_⟩
  · unfold wrapInt; omega
  · unfold wrapInt; omega

/-! ## Two consequences of the order of the tests -/

/-- The seconds counter after the counter update is the counter before it
or its 16-bit successor. -/
theorem updateCounters_seconds_cases (s : State) :
    (updateCounters s).seconds = s.seconds ∨
    (updateCounters s).seconds = wrapInt (s.seconds + 1) := by
  unfold updateCounters
  simp only []
  split_ifs
  · exact Or.inr rfl
  · exact Or.inl rfl

/-- A tick in `ShortBreak` with a seconds counter in 181..300 ends in
`PrepareWork` at 0 seconds, whatever the flag. -/
theorem short_break_overdue (t : State) (hcs : t.current_state = STATE_SHORT_BREAK)
    (hsec : 181 ≤ t.seconds ∧ t.seconds ≤ 300) :
    (TIMER_A t).current_state = STATE_PREPARE_WORK ∧ (TIMER_A t).seconds = 0 := by
  have hp : isPhase t.current_state := by rw [hcs]; decide
  have hoff : t.current_state ≠ STATE_OFF := by rw [hcs]; decide
  obtain ⟨g1, _, g3⟩ := TIMER_A_of_phase t hp hoff
  have hgt : (updateCounters t).seconds > specTimeoutThreshold t.current_state := by
    have hthr : specTimeoutThreshold t.current_state = 180 := by rw [hcs]; rfl
    rw [hthr]
    rcases updateCounters_seconds_cases t with h | h
    · rw [h]; omega
    · rw [h]; unfold wrapInt; omega
  rw [if_pos hgt] at g1 g3
  rw [hcs] at g1
  exact ⟨g1, g3⟩

/-- C18. One-tick short break: from `TimeToBreak` with a press pending
and a seconds counter that the counter update leaves in 181..300, one
tick yields `ShortBreak` with the seconds counter carried over, and the
next tick yields `PrepareWork` at 0 seconds, with or without a new press
in between. -/
theorem one_tick_short_break (s : State) (hcs : s.current_state = STATE_TIME_TO_BREAK)
    (hb : s.button_press ≠ 0)
    (hsec : 181 ≤ (updateCounters s).seconds ∧ (updateCounters s).seconds ≤ 300) :
    (TIMER_A s).current_state = STATE_SHORT_BREAK ∧
    (TIMER_A s).seconds = (updateCounters s).seconds ∧
    (TIMER_A (TIMER_A s)).current_state = STATE_PREPARE_WORK ∧
    (TIMER_A (TIMER_A s)).seconds = 0 ∧
    (TIMER_A (P1_ISR (TIMER_A s))).current_state = STATE_PREPARE_WORK ∧
    (TIMER_A (P1_ISR (TIMER_A s))).seconds = 0 := by
  have hp : isPhase s.current_state := by rw [hcs]; decide
  have hoff : s.current_state ≠ STATE_OFF := by rw [hcs]; decide
  obtain ⟨g1, _, g3⟩ := TIMER_A_of_phase s hp hoff
  have hle : ¬ (updateCounters s).seconds > specTimeoutThreshold s.current_state := by
    have hthr : specTimeoutThreshold s.current_state = 300 := by rw [hcs]; rfl
    rw [hthr]; omega
  rw [if_neg hle, if_pos hb, hcs] at g1
  rw [if_neg hle] at g3
  have g1 : (TIMER_A s).current_state = STATE_SHORT_BREAK := g1
  have hs1 : 181 ≤ (TIMER_A s).seconds ∧ (TIMER_A s).seconds ≤ 300 := by rw [g3]; exact hsec
  obtain ⟨a1, a2⟩ := short_break_overdue (TIMER_A s) g1 hs1
  obtain ⟨b1, b2⟩ := short_break_overdue (P1_ISR (TIMER_A s)) g1 hs1
  exact ⟨g1, g3, a1, a2, b1, b2⟩

/-- Witness of C18: `TimeToBreak` at 250 seconds with a press pending. -/
theorem one_tick_short_break_witness :
    (TIMER_A ⟨STATE_TIME_TO_BREAK, 1, 2, 250, 0⟩).current_state = STATE_SHORT_BREAK ∧
    (TIMER_A ⟨STATE_TIME_TO_BREAK, 1, 2, 250, 0⟩).seconds =
      (updateCounters ⟨STATE_TIME_TO_BREAK, 1, 2, 250, 0⟩).seconds ∧
    (TIMER_A (TIMER_A ⟨STATE_TIME_TO_BREAK, 1, 2, 250, 0⟩)).current_state =
      STATE_PREPARE_WORK ∧
    (TIMER_A (TIMER_A ⟨STATE_TIME_TO_BREAK, 1, 2, 250, 0⟩)).seconds = 0 ∧
    (TIMER_A (P1_ISR (TIMER_A ⟨STATE_TIME_TO_BREAK, 1, 2, 250, 0⟩))).current_state =
      STATE_PREPARE_WORK ∧
    (TIMER_A (P1_ISR (TIMER_A ⟨STATE_TIME_TO_BREAK, 1, 2, 250, 0⟩))).seconds = 0 :=
  one_tick_short_break ⟨STATE_TIME_TO_BREAK, 1, 2, 250, 0⟩ rfl (by decide) (by decide)

/-- C19. A press made while `Off` is deferred: from `Off` with a press
pending, a ticks counter in 0..9 and a seconds counter in 0..299, one
tick yields `TimeToWork` with the press still pending, and a second tick
with no further press yields `Work` with the flag cleared. -/
theorem press_in_off_deferred (s : State) (hcs : s.current_state = STATE_OFF)
    (hb : s.button_press ≠ 0) (ht : 0 ≤ s.ticks ∧ s.ticks ≤ 9)
    (hs : 0 ≤ s.seconds ∧ s.seconds ≤ 299) :
    (TIMER_A s).current_state = STATE_TIME_TO_WORK ∧
    (TIMER_A s).button_press ≠ 0 ∧
    (TIMER_A (TIMER_A s)).current_state = STATE_WORK ∧
    (TIMER_A (TIMER_A s)).button_press = 0 := by
  obtain ⟨g1, g2, g3⟩ := TIMER_A_of_off s hcs
  obtain ⟨u1, u2⟩ := updateCounters_in_range s ht ⟨hs.1, by omega⟩
  have htk : (TIMER_A s).ticks = (s.ticks + 1) % 10 := by rw [TIMER_A_ticks, u1]
  rw [u2] at g3
  have hb1 : (TIMER_A s).button_press ≠ 0 := by rw [g2]; exact hb
  have hp1 : isPhase (TIMER_A s).current_state := by rw [g1]; decide
  have hoff1 : (TIMER_A s).current_state ≠ STATE_OFF := by rw [g1]; decide
  have hs1 : 0 ≤ (TIMER_A s).seconds ∧ (TIMER_A s).seconds ≤ 300 := by
    rw [g3]; split_ifs <;> omega
  obtain ⟨v1, v2⟩ := updateCounters_in_range (TIMER_A s) (by rw [htk]; omega)
    ⟨hs1.1, by omega⟩
  obtain ⟨k1, k2, _⟩ := TIMER_A_of_phase (TIMER_A s) hp1 hoff1
  have hle : ¬ (updateCounters (TIMER_A s)).seconds >
      specTimeoutThreshold (TIMER_A s).current_state := by
    have hthr : specTimeoutThreshold (TIMER_A s).current_state = 300 := by rw [g1]; rfl
    rw [hthr, v2, htk, g3]
    split_ifs <;> omega
  rw [if_neg hle, if_pos hb1, g1] at k1
  exact ⟨g1, hb1, k1, k2⟩

/-- Witness of C19: the state `main` leaves, after a press, within the
first tenth of a second. -/
theorem press_in_off_deferred_witness :
    (TIMER_A (P1_ISR (main 0))).current_state = STATE_TIME_TO_WORK ∧
    (TIMER_A (P1_ISR (main 0))).button_press ≠ 0 ∧
    (TIMER_A (TIMER_A (P1_ISR (main 0)))).current_state = STATE_WORK ∧
    (TIMER_A (TIMER_A (P1_ISR (main 0)))).button_press = 0 :=
  press_in_off_deferred (P1_ISR (main 0)) rfl (by decide) (by decide) (by decide)

/-! ## Unattended power-down -/

/-- No press is pending and the counters are within their bounds. -/
def quiet (s : State) : Prop :=
  s.button_press = 0 ∧ (0 ≤ s.ticks ∧ s.ticks ≤ 9) ∧ (0 ≤ s.seconds ∧ s.seconds ≤ 1380)

instance (s : State) : Decidable (quiet s) := by
  unfold quiet; infer_instance

theorem runTicks_add (m n : Nat) (s : State) :
    runTicks (m + n) s = runTicks n (runTicks m s) := by
  induction n with
  | zero => rfl
  | succ k ih =>
    show TIMER_A (runTicks (m + k) s) = TIMER_A (runTicks k (runTicks m s))
    rw [ih]

/-- One tick from a quiet state in a phase other than `Off`: either the
timeout fires, and the tick ends in the timeout target at 0 seconds, or
the phase is kept and the number of ticks left before the timeout, ten
times the seconds left plus the ticks left in the second, drops by 1. -/
theorem quiet_step (s : State) (hp : isPhase s.current_state)
    (hoff : s.current_state ≠ STATE_OFF) (hq : quiet s) :
    quiet (TIMER_A s) ∧
    (((TIMER_A s).current_state = specTimeoutTarget s.current_state ∧
        (TIMER_A s).seconds = 0) ∨
      ((TIMER_A s).current_state = s.current_state ∧
        (TIMER_A s).seconds ≤ specTimeoutThreshold s.current_state ∧
        10 * (specTimeoutThreshold s.current_state - (TIMER_A s).seconds) +
            (10 - (TIMER_A s).ticks) + 1 =
          10 * (specTimeoutThreshold s.current_state - s.seconds) + (10 - s.ticks))) := by
  obtain ⟨hb, ht, hs⟩ := hq
  obtain ⟨u1, u2⟩ := updateCounters_in_range s ht ⟨hs.1, by omega⟩
  obtain ⟨g1, g2, g3⟩ := TIMER_A_of_phase s hp hoff
  have htk : (TIMER_A s).ticks = (s.ticks + 1) % 10 := by rw [TIMER_A_ticks, u1]
  have hthr := specTimeoutThreshold_le s.current_state
  by_cases hgt : (updateCounters s).seconds > specTimeoutThreshold s.current_state
  · rw [if_pos hgt] at g1 g3
    refine ⟨⟨g2, by rw [htk]; omega, by rw [g3]; decide⟩, Or.inl ⟨g1, g3⟩⟩
  · rw [if_neg hgt, if_neg (not_not.mpr hb)] at g1
    rw [if_neg hgt, u2] at g3
    rw [u2] at hgt
    refine ⟨⟨g2, by rw [htk]; omega, by rw [g3]; split_ifs <;> omega⟩,
      Or.inr ⟨g1, ?_, ?_⟩⟩
    · rw [g3]; omega
    · rw [g3, htk]
      split_ifs at hgt ⊢ <;> omega

/-- From a quiet state in a phase other than `Off`, the timeout target is
reached, in a quiet state, within the number of ticks left before the
timeout. -/
theorem reach_timeout (k : Nat) :
    ∀ s : State, isPhase s.current_state → s.current_state ≠ STATE_OFF → quiet s →
      10 * (specTimeoutThreshold s.current_state - s.seconds) + (10 - s.ticks) ≤
        (k : Int) + 1 →
      ∃ m : Nat, m ≤ k + 1 ∧
        (runTicks m s).current_state = specTimeoutTarget s.current_state ∧
        quiet (runTicks m s) := by
  induction k with
  | zero =>
    intro s hp hoff hq hm
    obtain ⟨hq1, h | ⟨_, h2, h3⟩⟩ := quiet_step s hp hoff hq
    · exact ⟨1, le_refl _, h.1, hq1⟩
    · obtain ⟨_, ht1, _⟩ := hq1
      push_cast at hm
      omega
  | succ k ih =>
    intro s hp hoff hq hm
    obtain ⟨hq1, h | ⟨h1, h2, h3⟩⟩ := quiet_step s hp hoff hq
    · exact ⟨1, by omega, h.1, hq1⟩
    · have hp1 : isPhase (TIMER_A s).current_state := by rw [h1]; exact hp
      have hoff1 : (TIMER_A s).current_state ≠ STATE_OFF := by rw [h1]; exact hoff
      obtain ⟨m, hm1, hm2, hm3⟩ := ih (TIMER_A s) hp1 hoff1 hq1 (by
        rw [h1]; push_cast at hm; omega)
      refine ⟨1 + m, by omega, ?_, ?_⟩
      · rw [runTicks_add, ← h1]; exact hm2
      · rw [runTicks_add]; exact hm3

/-- The same with the bound of the table: ten ticks for each second of
the threshold, and ten more. -/
theorem reach_timeout_within (s : State) (hp : isPhase s.current_state)
    (hoff : s.current_state ≠ STATE_OFF) (hq : quiet s) (b : Nat)
    (hb : 10 * (specTimeoutThreshold s.current_state + 1) ≤ (b : Int) + 1) :
    ∃ m : Nat, m ≤ b + 1 ∧
      (runTicks m s).current_state = specTimeoutTarget s.current_state ∧
      quiet (runTicks m s) := by
  obtain ⟨_, ht, hs⟩ := hq
  exact reach_timeout b s hp hoff ⟨by assumption, ht, hs⟩ (by omega)

/-- Two stretches of ticks, one after the other. -/
theorem off_after_both (s : State) (m a : Nat) (b c : Nat) (hm : m ≤ b)
    (h : ∃ n : Nat, n ≤ c ∧ (runTicks n (runTicks m s)).current_state = STATE_OFF)
    (habc : b + c ≤ a) :
    ∃ n : Nat, n ≤ a ∧ (runTicks n s).current_state = STATE_OFF := by
  obtain ⟨n, hn, hoff⟩ := h
  exact ⟨m + n, by omega, by rw [runTicks_add]; exact hoff⟩

/-- Ignored, `TimeToWork` and `TimeToBreak` power down within 3010
ticks. -/
theorem off_from_waiting (s : State)
    (hcs : s.current_state = STATE_TIME_TO_WORK ∨ s.current_state = STATE_TIME_TO_BREAK)
    (hq : quiet s) :
    ∃ n : Nat, n ≤ 3010 ∧ (runTicks n s).current_state = STATE_OFF := by
  have hp : isPhase s.current_state := by rcases hcs with h | h <;> rw [h] <;> decide
  have hoff : s.current_state ≠ STATE_OFF := by rcases hcs with h | h <;> rw [h] <;> decide
  have hthr : specTimeoutThreshold s.current_state = 300 := by
    rcases hcs with h | h <;> rw [h] <;> rfl
  have htgt : specTimeoutTarget s.current_state = STATE_OFF := by
    rcases hcs with h | h <;> rw [h] <;> rfl
  obtain ⟨m, hm, h1, _⟩ := reach_timeout_within s hp hoff hq 3009 (by rw [hthr]; decide)
  exact ⟨m, hm, by rw [h1, htgt]⟩

/-- Ignored, `PrepareBreak` and `PrepareWork` power down within 1210 +
3010 ticks. -/
theorem off_from_prepare (s : State)
    (hcs : s.current_state = STATE_PREPARE_BREAK ∨ s.current_state = STATE_PREPARE_WORK)
    (hq : quiet s) :
    ∃ n : Nat, n ≤ 4220 ∧ (runTicks n s).current_state = STATE_OFF := by
  have hp : isPhase s.current_state := by rcases hcs with h | h <;> rw [h] <;> decide
  have hoff : s.current_state ≠ STATE_OFF := by rcases hcs with h | h <;> rw [h] <;> decide
  have hthr : specTimeoutThreshold s.current_state = 120 := by
    rcases hcs with h | h <;> rw [h] <;> rfl
  have htgt : specTimeoutTarget s.current_state = STATE_TIME_TO_BREAK ∨
      specTimeoutTarget s.current_state = STATE_TIME_TO_WORK := by
    rcases hcs with h | h <;> rw [h]
    · exact Or.inl rfl
    · exact Or.inr rfl
  obtain ⟨m, hm, h1, hq1⟩ := reach_timeout_within s hp hoff hq 1209 (by rw [hthr]; decide)
  have hnext : (runTicks m s).current_state = STATE_TIME_TO_WORK ∨
      (runTicks m s).current_state = STATE_TIME_TO_BREAK := by
    rw [h1]; exact htgt.symm
  exact off_after_both s m 4220 1210 3010 hm (off_from_waiting _ hnext hq1) (by decide)

/-- Ignored, `Work`, `ShortBreak` and `LongBreak` power down within
13810 + 1210 + 3010 ticks, the bound of `Work`, whose threshold is the
largest. -/
theorem off_from_work_or_break (s : State)
    (hcs : s.current_state = STATE_WORK ∨ s.current_state = STATE_SHORT_BREAK ∨
      s.current_state = STATE_LONG_BREAK)
    (hq : quiet s) :
    ∃ n : Nat, n ≤ 18030 ∧ (runTicks n s).current_state = STATE_OFF := by
  have hp : isPhase s.current_state := by
    rcases hcs with h | h | h <;> rw [h] <;> decide
  have hoff : s.current_state ≠ STATE_OFF := by
    rcases hcs with h | h | h <;> rw [h] <;> decide
  have hthr : specTimeoutThreshold s.current_state ≤ 1380 := specTimeoutThreshold_le _
  have htgt : specTimeoutTarget s.current_state = STATE_PREPARE_BREAK ∨
      specTimeoutTarget s.current_state = STATE_PREPARE_WORK := by
    rcases hcs with h | h | h <;> rw [h]
    · exact Or.inl rfl
    · exact Or.inr rfl
    · exact Or.inr rfl
  obtain ⟨m, hm, h1, hq1⟩ := reach_timeout_within s hp hoff hq 13809 (by omega)
  have hnext : (runTicks m s).current_state = STATE_PREPARE_BREAK ∨
      (runTicks m s).current_state = STATE_PREPARE_WORK := by
    rw [h1]; exact htgt
  exact off_after_both s m 18030 13810 4220 hm (off_from_prepare _ hnext hq1) (by decide)

/-- C15. Unattended power-down: from every state with a phase among the
eight, a ticks counter in 0..9, a seconds counter in 0..1380 and no press
pending, if no press occurs, the phase is `Off` after some number of
ticks not greater than 18030. -/
theorem unattended_power_down (s : State) (hp : isPhase s.current_state)
    (ht : 0 ≤ s.ticks ∧ s.ticks ≤ 9) (hs : 0 ≤ s.seconds ∧ s.seconds ≤ 1380)
    (hb : s.button_press = 0) :
    ∃ n : Nat, n ≤ 18030 ∧ (runTicks n s).current_state = STATE_OFF := by
  have hq : quiet s := ⟨hb, ht, hs⟩
  obtain ⟨h0, h7⟩ := hp
  simp only [STATE_OFF, STATE_PREPARE_WORK] at h0 h7
  have hcases : s.current_state = 0 ∨ s.current_state = 1 ∨ s.current_state = 2 ∨
      s.current_state = 3 ∨ s.current_state = 4 ∨ s.current_state = 5 ∨
      s.current_state = 6 ∨ s.current_state = 7 := by
    omega
  rcases hcases with c | c | c | c | c | c | c | c
  · exact ⟨0, by decide, c⟩
  · obtain ⟨n, hn, h⟩ := off_from_waiting s (Or.inl c) hq
    exact ⟨n, by omega, h⟩
  · exact off_from_work_or_break s (Or.inl c) hq
  · obtain ⟨n, hn, h⟩ := off_from_prepare s (Or.inl c) hq
    exact ⟨n, by omega, h⟩
  · obtain ⟨n, hn, h⟩ := off_from_waiting s (Or.inr c) hq
    exact ⟨n, by omega, h⟩
  · exact off_from_work_or_break s (Or.inr (Or.inl c)) hq
  · exact off_from_work_or_break s (Or.inr (Or.inr c)) hq
  · obtain ⟨n, hn, h⟩ := off_from_prepare s (Or.inr c) hq
    exact ⟨n, by omega, h⟩

/-- Witness of C15: `Work` at 0 seconds and 0 ticks, the worst case. -/
theorem unattended_power_down_witness :
    ∃ n : Nat, n ≤ 18030 ∧ (runTicks n ⟨STATE_WORK, 0, 0, 0, 1⟩).current_state = STATE_OFF :=
  unattended_power_down ⟨STATE_WORK, 0, 0, 0, 1⟩ (by decide) (by decide) (by decide) rfl
